import Mathlib

/-!
Verification development for the dstack run-orchestration core.

The Lean definitions below shallowly embed the Python sources:
  - src/src/dstack/_internal/server/services/runs.py
  - src/gateway/src/dstack/gateway/core/nginx.py
  - src/src/dstack/api/server/_pools.py
Enum types and status predicates whose defining module is not part of the
provided sources are modelled from the specification and marked as such.
-/

namespace DstackSpec

/-- Modelled from the spec: `RunTerminationReason` enum used by
`run_to_job_termination_reason` and `run_termination_reason_to_status`
(its defining module `dstack._internal.core.models.runs` is not among the
provided sources; the constructor set is the domain of both mapping tables). -/
inductive RunTerminationReason where
  | ALL_JOBS_DONE
  | JOB_FAILED
  | RETRY_LIMIT_EXCEEDED
  | STOPPED_BY_USER
  | ABORTED_BY_USER
deriving DecidableEq, Repr

/-- Modelled from the spec: `JobTerminationReason` enum (values appearing in the
job-termination-reason table and in `process_terminating_run`). -/
inductive JobTerminationReason where
  | DONE_BY_RUNNER
  | TERMINATED_BY_SERVER
  | TERMINATED_BY_USER
  | ABORTED_BY_USER
deriving DecidableEq, Repr

/-- Modelled from the spec: run statuses
{SUBMITTED, PROVISIONING, RUNNING, TERMINATING, DONE, FAILED, TERMINATED}. -/
inductive RunStatus where
  | SUBMITTED
  | PROVISIONING
  | RUNNING
  | TERMINATING
  | DONE
  | FAILED
  | TERMINATED
deriving DecidableEq, Repr

/-- Modelled from the spec: `RunStatus.is_finished`; terminal run statuses are
DONE, FAILED, TERMINATED. -/
def RunStatus.is_finished : RunStatus → Bool
  | .DONE => true
  | .FAILED => true
  | .TERMINATED => true
  | _ => false

/-- Modelled from the spec: job statuses
{SUBMITTED, PROVISIONING, RUNNING, TERMINATING, DONE, FAILED, TERMINATED, ABORTED}. -/
inductive JobStatus where
  | SUBMITTED
  | PROVISIONING
  | RUNNING
  | TERMINATING
  | DONE
  | FAILED
  | TERMINATED
  | ABORTED
deriving DecidableEq, Repr

/-- Modelled from the spec: `JobStatus.is_finished`; terminal job statuses are
DONE, FAILED, TERMINATED, ABORTED. -/
def JobStatus.is_finished : JobStatus → Bool
  | .DONE => true
  | .FAILED => true
  | .TERMINATED => true
  | .ABORTED => true
  | _ => false

/-- Embeds `run_to_job_termination_reason` (runs.py lines 751-761): a total
dictionary lookup mapping each run termination reason to a job termination
reason. -/
def run_to_job_termination_reason :
    RunTerminationReason → JobTerminationReason
  | .ALL_JOBS_DONE => .DONE_BY_RUNNER
  | .JOB_FAILED => .TERMINATED_BY_SERVER
  | .RETRY_LIMIT_EXCEEDED => .TERMINATED_BY_SERVER
  | .STOPPED_BY_USER => .TERMINATED_BY_USER
  | .ABORTED_BY_USER => .ABORTED_BY_USER

/-- Embeds `run_termination_reason_to_status` (runs.py lines 764-772). -/
def run_termination_reason_to_status : RunTerminationReason → RunStatus
  | .ALL_JOBS_DONE => .DONE
  | .JOB_FAILED => .FAILED
  | .RETRY_LIMIT_EXCEEDED => .FAILED
  | .STOPPED_BY_USER => .TERMINATED
  | .ABORTED_BY_USER => .TERMINATED

/-- State of a `JobModel` row as far as `process_terminating_run` reads and
writes it: `status` and `termination_reason` (runs.py lines 713-734). -/
structure JobM where
  status : JobStatus
  termination_reason : Option JobTerminationReason
deriving DecidableEq, Repr

/-- State of a `RunModel` row as far as `process_terminating_run` reads and
writes it (runs.py lines 698-748). `gateway_id` is abstracted to a numeric
identifier. -/
structure RunM where
  status : RunStatus
  termination_reason : RunTerminationReason
  gateway_id : Option Nat
  jobs : List JobM
deriving DecidableEq, Repr

/-- Embeds the per-job loop of `process_terminating_run` (runs.py lines
713-734). `ptj` abstracts `process_terminating_job` (imported from the jobs
service, not among the provided sources): it receives the job after its status
and termination reason have been assigned and may further advance it.
Returns the processed jobs in order, the final `unfinished_jobs_count`, and one
boolean per job recording whether `stop_runner` was invoked for it.
The Python loop threads `unfinished_jobs_count` additively through per-job
contributions, so head-first recursion computes the same count. -/
def processJobsLoop (ptj : JobM → JobM) (reason : JobTerminationReason) :
    List JobM → List JobM × Nat × List Bool
  | [] => ([], 0, [])
  | j :: js =>
    let rest := processJobsLoop ptj reason js
    if j.status.is_finished then
      (j :: rest.1, rest.2.1, false :: rest.2.2)
    else if j.status = JobStatus.TERMINATING then
      (j :: rest.1, rest.2.1 + 1, false :: rest.2.2)
    else
      let sent := j.status == JobStatus.RUNNING
        && !(reason == JobTerminationReason.ABORTED_BY_USER
             || reason == JobTerminationReason.DONE_BY_RUNNER)
      let j' := ptj { j with status := JobStatus.TERMINATING, termination_reason := some reason }
      let contrib := if j'.status.is_finished then 0 else 1
      (j' :: rest.1, rest.2.1 + contrib, sent :: rest.2.2)

/-- Observable outcome of `process_terminating_run`: the updated run row, the
`stop_runner` calls (one flag per job, in order), the final
`unfinished_jobs_count`, and whether a gateway unregister attempt failed (and
was merely logged). -/
structure ProcessResult where
  run : RunM
  signals : List Bool
  unfinished_count : Nat
  unregister_failed : Bool
deriving DecidableEq, Repr

/-- Embeds `process_terminating_run` (runs.py lines 698-748). Lock waiting and
the session refresh are not part of the state modelled here. `unregister_fails`
abstracts whether `gateways.unregister_service` raises; the exception is caught
and logged (runs.py lines 738-741), which the model records in
`unregister_failed` without affecting the run. -/
def process_terminating_run (ptj : JobM → JobM) (unregister_fails : Bool)
    (r : RunM) : ProcessResult :=
  if (processJobsLoop ptj (run_to_job_termination_reason r.termination_reason) r.jobs).2.1 = 0 then
    { run := { r with jobs := (processJobsLoop ptj (run_to_job_termination_reason r.termination_reason) r.jobs).1, status := run_termination_reason_to_status r.termination_reason },
      signals := (processJobsLoop ptj (run_to_job_termination_reason r.termination_reason) r.jobs).2.2,
      unfinished_count := (processJobsLoop ptj (run_to_job_termination_reason r.termination_reason) r.jobs).2.1,
      unregister_failed := r.gateway_id.isSome && unregister_fails }
  else
    { run := { r with jobs := (processJobsLoop ptj (run_to_job_termination_reason r.termination_reason) r.jobs).1 },
      signals := (processJobsLoop ptj (run_to_job_termination_reason r.termination_reason) r.jobs).2.2,
      unfinished_count := (processJobsLoop ptj (run_to_job_termination_reason r.termination_reason) r.jobs).2.1,
      unregister_failed := false }

/-- Per-job action of the `process_terminating_run` loop: a finished job is
skipped, a TERMINATING job is left to the terminating-jobs reconciler, and any
other job is assigned status TERMINATING with the mapped termination reason and
handed to the job terminator `ptj`. -/
def job_after_termination (ptj : JobM → JobM) (reason : JobTerminationReason)
    (j : JobM) : JobM :=
  if j.status.is_finished then j
  else if j.status = JobStatus.TERMINATING then j
  else ptj { j with status := JobStatus.TERMINATING, termination_reason := some reason }

/-- Per-job condition under which the `process_terminating_run` loop invokes
`stop_runner`: the job is RUNNING and the mapped reason is neither
ABORTED_BY_USER nor DONE_BY_RUNNER. -/
def job_stop_signal (reason : JobTerminationReason) (j : JobM) : Bool :=
  j.status == JobStatus.RUNNING
    && !(reason == JobTerminationReason.ABORTED_BY_USER
         || reason == JobTerminationReason.DONE_BY_RUNNER)

/-- Modelled from the spec: `BackendType` enum members referenced by the
provided sources (the enum's defining module is not among them). Only members
actually named by the sources or needed as examples are included. -/
inductive BackendType where
  | AWS
  | AZURE
  | CUDO
  | DATACRUNCH
  | GCP
  | LAMBDA
  | TENSORDOCK
  | DSTACK
  | VASTAI
  | KUBERNETES
deriving DecidableEq, Repr

/-- Modelled from the spec: `InstanceRuntime`; RUNNER marks offers that cannot
host arbitrary VMs. -/
inductive InstanceRuntime where
  | SHIM
  | RUNNER
deriving DecidableEq, Repr

/-- Modelled from the spec: instance availability values of an offer. -/
inductive InstanceAvailability where
  | IDLE
  | BUSY
  | AVAILABLE
  | NO_QUOTA
  | NO_CAPACITY
  | NOT_AVAILABLE
deriving DecidableEq, Repr

/-- Modelled from the spec: instance statuses
{PENDING, PROVISIONING, IDLE, BUSY, TERMINATING, TERMINATED, FAILED}. -/
inductive InstanceStatus where
  | PENDING
  | PROVISIONING
  | IDLE
  | BUSY
  | TERMINATING
  | TERMINATED
  | FAILED
deriving DecidableEq, Repr

/-- Modelled from the spec: termination policy enum. -/
inductive TerminationPolicy where
  | DONT_DESTROY
  | DESTROY_AFTER_IDLE
deriving DecidableEq, Repr

/-- Modelled from the spec: creation policy enum {REUSE, REUSE_OR_CREATE}. -/
inductive CreationPolicy where
  | REUSE
  | REUSE_OR_CREATE
deriving DecidableEq, Repr

/-- Embeds the fields of `InstanceOfferWithAvailability` read by runs.py:
backend, instance type name, region, price, availability and runtime. Prices
are embedded as rationals. -/
structure InstanceOfferM where
  backend : BackendType
  instance_type_name : String
  region : String
  price : ℚ
  availability : InstanceAvailability
  instance_runtime : InstanceRuntime
deriving DecidableEq, Repr

/-- Embeds `BACKENDS_WITH_CREATE_INSTANCE_SUPPORT` (runs.py lines 98-106). -/
def BACKENDS_WITH_CREATE_INSTANCE_SUPPORT : List BackendType :=
  [BackendType.AWS, BackendType.AZURE, BackendType.CUDO, BackendType.DATACRUNCH,
   BackendType.GCP, BackendType.LAMBDA, BackendType.TENSORDOCK]

/-- Embeds the offer filter of `get_create_instance_offers` (runs.py lines
467-484): keep offers whose backend type supports explicit instance creation.
The first component of a pair is `backend.TYPE` of the `Backend` adapter, the
second the offer itself. -/
def get_create_instance_offers (offers : List (BackendType × InstanceOfferM)) :
    List (BackendType × InstanceOfferM) :=
  offers.filter (fun p => BACKENDS_WITH_CREATE_INSTANCE_SUPPORT.contains p.1)

/-- Client-facing errors raised by the pre-checks of `create_instance`
(runs.py lines 504-518). `backendsNotSupported` carries the distinct backend
types of the remaining offers (joined into the message in Python). -/
inductive CreateInstanceError where
  | backendsNotSupported (backend_types : List BackendType)
  | noOffersFound
deriving DecidableEq, Repr

/-- Embeds the pre-checks of `create_instance` (runs.py lines 497-518): filter
offers to backends with creation support, then raise if every remaining
backend type lacks creation support (`all` over the set of types), otherwise
raise if the remaining offer list is empty. -/
def create_instance_check (offers : List (BackendType × InstanceOfferM)) :
    Except CreateInstanceError Unit :=
  if (((get_create_instance_offers offers).map Prod.fst).dedup).all
      (fun bt => !BACKENDS_WITH_CREATE_INSTANCE_SUPPORT.contains bt) then
    Except.error (CreateInstanceError.backendsNotSupported
      (((get_create_instance_offers offers).map Prod.fst).dedup))
  else if (get_create_instance_offers offers).isEmpty then
    Except.error CreateInstanceError.noOffersFound
  else
    Except.ok ()

/-- Embeds `LaunchedInstanceInfo` as returned by
`backend.compute().create_instance`. -/
structure LaunchedInstanceInfo where
  instance_id : String
  ip_address : String
  region : String
  username : String
  ssh_port : Nat
  dockerized : Bool
  backend_data : Option String
deriving DecidableEq, Repr

/-- Outcome of one `backend.compute().create_instance` call as observed by the
offer loop of `create_instance` (runs.py lines 550-567). -/
inductive CreateAttemptResult where
  | success (info : LaunchedInstanceInfo)
  | backendError (msg : String)
  | notImplementedError
deriving DecidableEq, Repr

/-- One iteration candidate of the `create_instance` offer loop: the backend
adapter's type, the offer, and the result the backend would return for it. -/
structure CreateAttempt where
  backend_type : BackendType
  offer : InstanceOfferM
  result : CreateAttemptResult
deriving DecidableEq, Repr

/-- Embeds `JobProvisioningData` as built in runs.py lines 568-580. -/
structure JobProvisioningData where
  backend : BackendType
  instance_type : String
  instance_id : String
  hostname : String
  region : String
  price : ℚ
  username : String
  ssh_port : Nat
  dockerized : Bool
  backend_data : Option String
  ssh_proxy : Option String
deriving DecidableEq, Repr

def mk_job_provisioning_data (a : CreateAttempt) (info : LaunchedInstanceInfo) :
    JobProvisioningData :=
  { backend := a.backend_type
    instance_type := a.offer.instance_type_name
    instance_id := info.instance_id
    hostname := info.ip_address
    region := info.region
    price := a.offer.price
    username := info.username
    ssh_port := info.ssh_port
    dockerized := info.dockerized
    backend_data := info.backend_data
    ssh_proxy := none }

/-- Modelled from the spec: profile fields consumed by runs.py. Fields not
read by the provided sources are omitted. -/
structure Profile where
  backends : Option (List BackendType)
  regions : Option (List String)
  pool_name : Option String
  creation_policy : Option CreationPolicy
  termination_policy : Option TerminationPolicy
  termination_idle_time : Option Nat
deriving DecidableEq, Repr

/-- Modelled from the spec: `DEFAULT_POOL_TERMINATION_IDLE_TIME` (profiles
module, not among the provided sources); 72 hours in seconds. -/
def DEFAULT_POOL_TERMINATION_IDLE_TIME : Nat := 72 * 3600

/-- Embeds the `InstanceModel` row committed by `create_instance` (runs.py
lines 585-599); timestamps are omitted. -/
structure InstanceModelRow where
  name : String
  status : InstanceStatus
  backend : BackendType
  region : String
  price : ℚ
  job_provisioning_data : JobProvisioningData
  offer : InstanceOfferM
  termination_policy : TerminationPolicy
  termination_idle_time : Nat
deriving DecidableEq, Repr

/-- Builds the `InstanceModel` row committed on a successful launch (runs.py
lines 581-599). -/
def mk_instance_model_row (instance_name : String) (profile : Profile)
    (a : CreateAttempt) (info : LaunchedInstanceInfo) : InstanceModelRow :=
  { name := instance_name
    status := InstanceStatus.PROVISIONING
    backend := a.backend_type
    region := a.offer.region
    price := a.offer.price
    job_provisioning_data := mk_job_provisioning_data a info
    offer := a.offer
    termination_policy :=
      profile.termination_policy.getD TerminationPolicy.DESTROY_AFTER_IDLE
    termination_idle_time :=
      profile.termination_idle_time.getD DEFAULT_POOL_TERMINATION_IDLE_TIME }

/-- Result of the `create_instance` offer loop: the returned value or the
final error, the list of committed `InstanceModel` rows, and the warnings
logged for offers that failed with `BackendError`. -/
structure CreateInstanceLoopResult where
  result : Except String InstanceModelRow
  committed : List InstanceModelRow
  warnings : List String
deriving Repr

/-- Warning message logged when a launch fails with `BackendError` (runs.py
lines 557-563), abstracted to the identifying fields. -/
def launch_warning (a : CreateAttempt) (msg : String) : String :=
  a.offer.instance_type_name ++ " launch in " ++ a.offer.region ++ " failed: " ++ msg

/-- Embeds the offer loop of `create_instance` (runs.py lines 539-603):
offers are tried in order; an offer with runtime RUNNER is skipped; a
`BackendError` logs a warning and moves on; `NotImplementedError` moves on;
the first success commits exactly one `InstanceModel` row and returns it; if
the list is exhausted the loop fails with "Failed to create the instance.". -/
def create_instance_try_offers (instance_name : String) (profile : Profile) :
    List CreateAttempt → CreateInstanceLoopResult
  | [] => { result := Except.error "Failed to create the instance.",
            committed := [], warnings := [] }
  | a :: rest =>
    if a.offer.instance_runtime = InstanceRuntime.RUNNER then
      create_instance_try_offers instance_name profile rest
    else
      match a.result with
      | CreateAttemptResult.backendError msg =>
        let r := create_instance_try_offers instance_name profile rest
        { r with warnings := launch_warning a msg :: r.warnings }
      | CreateAttemptResult.notImplementedError =>
        create_instance_try_offers instance_name profile rest
      | CreateAttemptResult.success info =>
        let row := mk_instance_model_row instance_name profile a info
        { result := Except.ok row, committed := [row], warnings := [] }

/-- Holds when the offer loop of `create_instance` would return at this
attempt: the offer is not RUNNER-runtime and the backend call succeeds. -/
def attempt_launches (a : CreateAttempt) : Bool :=
  a.offer.instance_runtime != InstanceRuntime.RUNNER
    && (match a.result with
        | CreateAttemptResult.success _ => true
        | _ => false)

/-- First attempt of the list at which the loop would return, with its
launch info. -/
def first_launch : List CreateAttempt → Option (CreateAttempt × LaunchedInstanceInfo)
  | [] => none
  | a :: rest =>
    if a.offer.instance_runtime = InstanceRuntime.RUNNER then first_launch rest
    else
      match a.result with
      | CreateAttemptResult.success info => some (a, info)
      | _ => first_launch rest

/-- Embeds the `JobPlan` fields built by `get_run_plan` (runs.py lines
247-252); the job spec itself is not relevant here. -/
structure JobPlanM where
  offers : List InstanceOfferM
  total_offers : Nat
  max_price : Option ℚ
deriving DecidableEq, Repr

/-- Embeds the job-offer assembly of `get_run_plan` (runs.py lines 233-252):
pool offers first, then (only under creation policy REUSE_OR_CREATE) the
remote offers; the plan previews the first 50 offers, records the total
count, and takes the maximum price with `None` as default. `List.max?` is the
exact counterpart of Python `max(..., default=None)`: it folds `max` over a
nonempty list and returns `none` on an empty one. -/
def mk_job_plan (creation_policy : CreationPolicy)
    (pool_offers remote_offers : List InstanceOfferM) : JobPlanM :=
  let job_offers := pool_offers ++
    (if creation_policy = CreationPolicy.REUSE_OR_CREATE then remote_offers else [])
  { offers := job_offers.take 50
    total_offers := job_offers.length
    max_price := (job_offers.map (fun o => o.price)).max? }

/-- Embeds the pool-offer derivation of `get_run_plan` (runs.py lines
219-225): each filtered pool instance contributes its offer snapshot with
availability BUSY, overridden to IDLE when the instance is IDLE. -/
def pool_offers_from_instances
    (instances : List (InstanceOfferM × InstanceStatus)) : List InstanceOfferM :=
  instances.map (fun p =>
    { p.1 with availability :=
        if p.2 = InstanceStatus.IDLE then InstanceAvailability.IDLE
        else InstanceAvailability.BUSY })

/-- Embeds the per-job plan loop of `get_run_plan` (runs.py lines 233-253):
one plan per job, each combining the run's pool offers with that job's
remote offers. `per_job_remote_offers` carries, for each job produced by
`get_jobs_from_run_spec`, the offers `get_offers_by_requirements` returns for
its requirements. -/
def get_run_plan_job_plans (creation_policy : CreationPolicy)
    (pool_instances : List (InstanceOfferM × InstanceStatus))
    (per_job_remote_offers : List (List InstanceOfferM)) : List JobPlanM :=
  per_job_remote_offers.map (fun remote =>
    mk_job_plan creation_policy (pool_offers_from_instances pool_instances) remote)

/-- Embeds `_validate_run_name` (runs.py lines 693-695): the regex
`[a-z][a-z0-9-]\x7b1,40\x7d` anchored on both sides. -/
def run_name_valid (run_name : String) : Bool :=
  match run_name.data with
  | [] => false
  | c :: rest =>
    (c.isLower && c.isAlpha)
      && decide (1 ≤ rest.length) && decide (rest.length ≤ 40)
      && rest.all (fun d => (d.isLower && d.isAlpha) || d.isDigit || d == '-')

/-- Embeds the `run_spec` fields read and written by `get_run_plan`. -/
structure RunSpecM where
  run_name : Option String
  profile : Profile
deriving DecidableEq, Repr

/-- Embeds the profile mutation performed by `get_offers_by_requirements`
(runs.py lines 271-277): when `profile.backends` is exactly a one-element
list containing the dstack meta-backend, it is reset to `None` for
backward compatibility. -/
def get_offers_profile_update (p : Profile) : Profile :=
  match p.backends with
  | some bs =>
    if bs.length = 1 && bs.contains BackendType.DSTACK then
      { p with backends := none }
    else p
  | none => p

/-- Modelled from the spec: `get_or_create_pool_by_name` (pools service, not
among the provided sources). Section 4.2: the default pool is implicitly
created on first reference and the operation is idempotent. Pools are
abstracted to their names; the resolved pool name is `pool_name` when given,
else the project's default pool name, and the pool row is created when
missing. -/
def get_or_create_pool_by_name (pools : List String)
    (default_pool_name : String) (pool_name : Option String) :
    String × List String :=
  let name := pool_name.getD default_pool_name
  if pools.contains name then (name, pools) else (name, pools ++ [name])

/-- Embeds the effect of `get_run_plan` (runs.py lines 196-260) on its
`run_spec` argument and on the project's pool rows. The run name is validated
first (raising on failure); the creation policy defaults to REUSE_OR_CREATE;
the pool is resolved or created; `run_spec.run_name` is set to "dry-run" for
job generation and restored at the end (net effect: unchanged); the per-job
loop calls `get_offers_by_requirements` once per job under REUSE_OR_CREATE,
each call applying `get_offers_profile_update` to the shared profile object;
finally `run_spec.profile.pool_name` is overwritten with the resolved pool's
name. `num_jobs` is the number of jobs `get_jobs_from_run_spec` yields. -/
def get_run_plan_run_spec (pools : List String) (default_pool_name : String)
    (num_jobs : Nat) (rs : RunSpecM) : Except Unit (RunSpecM × List String) :=
  let name_ok := match rs.run_name with
    | some n => run_name_valid n
    | none => true
  if !name_ok then Except.error ()
  else
    let creation_policy := rs.profile.creation_policy.getD CreationPolicy.REUSE_OR_CREATE
    let resolved := get_or_create_pool_by_name pools default_pool_name rs.profile.pool_name
    let profile_after_loop :=
      if creation_policy = CreationPolicy.REUSE_OR_CREATE then
        Nat.rec rs.profile (fun _ p => get_offers_profile_update p) num_jobs
      else rs.profile
    Except.ok
      ({ rs with profile := { profile_after_loop with pool_name := some resolved.1 } },
       resolved.2)

/-- Embeds `ServiceConfig` (nginx.py lines 34-39); `servers` is the
replica-id → server-URL mapping, embedded as an insertion-ordered association
list like a Python dict. -/
structure ServiceConfigM where
  domain : String
  project : String
  service_id : String
  auth : Bool
  servers : List (String × String)
deriving DecidableEq, Repr

/-- Embeds `EntrypointConfig` (nginx.py lines 42-44). -/
structure EntrypointConfigM where
  domain : String
  proxy_path : String
deriving DecidableEq, Repr

/-- Embeds the discriminated union of site configs (nginx.py lines 53-55). -/
inductive SiteConfigM where
  | service (c : ServiceConfigM)
  | entrypoint (c : EntrypointConfigM)
deriving DecidableEq, Repr

/-- Dict assignment on an association list: replace the first binding of the
key, else append. -/
def assocSet {α : Type} (l : List (String × α)) (k : String) (v : α) :
    List (String × α) :=
  match l with
  | [] => [(k, v)]
  | (k', v') :: rest => if k' = k then (k, v) :: rest else (k', v') :: assocSet rest k v

/-- Dict `pop` on an association list: drop the first binding of the key. -/
def assocPop {α : Type} (l : List (String × α)) (k : String) :
    List (String × α) :=
  match l with
  | [] => []
  | (k', v') :: rest => if k' = k then rest else (k', v') :: assocPop rest k

/-- Errors surfaced by the gateway operations. The first five embed
`GatewayError` cases; `attributeError` marks the Python `AttributeError` that
`add_upstream`/`remove_upstream` would hit on an entrypoint config, which has
no `servers` attribute. -/
inductive GatewayOpError where
  | alreadyRegistered
  | notRegistered
  | upstreamNotRegistered
  | certbotFailed
  | reloadFailed
  | attributeError
deriving DecidableEq, Repr

/-- State of the `Nginx` controller: the in-memory `configs` mapping
(config-name → site config) and the contents of the proxy's sites directory
(config-name → file text). -/
structure NginxState where
  configs : List (String × SiteConfigM)
  files : String → Option String

/-- Embeds `Nginx.get_config_name` (nginx.py lines 181-183). -/
def get_config_name (domain : String) : String := "443-" ++ domain ++ ".conf"

/-- Result of `Nginx.write_conf`: whether the write (and reload) succeeded,
and the resulting directory contents. -/
structure WriteConfResult where
  ok : Bool
  files : String → Option String

/-- Embeds `Nginx.write_conf` (nginx.py lines 154-169): remember the prior
file text, write the new text, reload; on reload failure write back the prior
text, or remove the file when it did not exist before, and re-raise.
`reload_ok` abstracts the exit status of the nginx reload subprocess; the
`sudo cp`/`sudo rm` subprocesses are modelled as succeeding. -/
def write_conf (reload_ok : Bool) (conf : String) (conf_name : String)
    (files : String → Option String) : WriteConfResult :=
  let old_conf := files conf_name
  let files1 := fun p => if p = conf_name then some conf else files p
  if reload_ok then { ok := true, files := files1 }
  else
    match old_conf with
    | some o => { ok := false, files := fun p => if p = conf_name then some o else files1 p }
    | none => { ok := false, files := fun p => if p = conf_name then none else files1 p }

/-- Embeds `Nginx.register_service` (nginx.py lines 58-77). `render` abstracts
the jinja template rendering, `certbot_ok` the certbot subprocess. The mutated
config is stored in `configs` only after a successful write. -/
def register_service (render : SiteConfigM → String) (certbot_ok reload_ok : Bool)
    (st : NginxState) (project service_id domain : String) (auth : Bool) :
    Option GatewayOpError × NginxState :=
  let config_name := get_config_name domain
  let conf := SiteConfigM.service
    { domain := domain, project := project, service_id := service_id,
      auth := auth, servers := [] }
  if (st.configs.lookup config_name).isSome then
    (some GatewayOpError.alreadyRegistered, st)
  else if !certbot_ok then
    (some GatewayOpError.certbotFailed, st)
  else
    let w := write_conf reload_ok (render conf) config_name st.files
    if w.ok then
      (none, { configs := assocSet st.configs config_name conf, files := w.files })
    else
      (some GatewayOpError.reloadFailed, { st with files := w.files })

/-- Embeds `Nginx.register_entrypoint` (nginx.py lines 79-96). -/
def register_entrypoint (render : SiteConfigM → String)
    (certbot_ok reload_ok : Bool) (st : NginxState)
    (domain proxy_path : String) : Option GatewayOpError × NginxState :=
  let config_name := get_config_name domain
  let conf := SiteConfigM.entrypoint { domain := domain, proxy_path := proxy_path }
  if (st.configs.lookup config_name).isSome then
    (some GatewayOpError.alreadyRegistered, st)
  else if !certbot_ok then
    (some GatewayOpError.certbotFailed, st)
  else
    let w := write_conf reload_ok (render conf) config_name st.files
    if w.ok then
      (none, { configs := assocSet st.configs config_name conf, files := w.files })
    else
      (some GatewayOpError.reloadFailed, { st with files := w.files })

/-- Embeds `Nginx.add_upstream` (nginx.py lines 113-127): deep-copy the
current config, insert the server under the replica id, re-render and write;
the copy replaces the stored config only after a successful write. -/
def add_upstream (render : SiteConfigM → String) (reload_ok : Bool)
    (st : NginxState) (domain server replica_id : String) :
    Option GatewayOpError × NginxState :=
  let config_name := get_config_name domain
  match st.configs.lookup config_name with
  | none => (some GatewayOpError.notRegistered, st)
  | some (SiteConfigM.entrypoint _) => (some GatewayOpError.attributeError, st)
  | some (SiteConfigM.service sc) =>
    let conf := SiteConfigM.service { sc with servers := assocSet sc.servers replica_id server }
    let w := write_conf reload_ok (render conf) config_name st.files
    if w.ok then
      (none, { configs := assocSet st.configs config_name conf, files := w.files })
    else
      (some GatewayOpError.reloadFailed, { st with files := w.files })

/-- Embeds `Nginx.remove_upstream` (nginx.py lines 129-145): reject an
unknown replica, otherwise drop the server from a copy, re-render and write;
the copy replaces the stored config only after a successful write. -/
def remove_upstream (render : SiteConfigM → String) (reload_ok : Bool)
    (st : NginxState) (domain replica_id : String) :
    Option GatewayOpError × NginxState :=
  let config_name := get_config_name domain
  match st.configs.lookup config_name with
  | none => (some GatewayOpError.notRegistered, st)
  | some (SiteConfigM.entrypoint _) => (some GatewayOpError.attributeError, st)
  | some (SiteConfigM.service sc) =>
    if (sc.servers.lookup replica_id).isNone then
      (some GatewayOpError.upstreamNotRegistered, st)
    else
      let conf := SiteConfigM.service { sc with servers := assocPop sc.servers replica_id }
      let w := write_conf reload_ok (render conf) config_name st.files
      if w.ok then
        (none, { configs := assocSet st.configs config_name conf, files := w.files })
      else
        (some GatewayOpError.reloadFailed, { st with files := w.files })

/-- Request bodies sent by the pool API client (_pools.py). -/
inductive PoolRequestBody where
  | createPool (name : String)
  | deletePool (name : String) (force : Bool)
  | showPool (name : String)
  | removeInstance (pool_name : String) (instance_name : String)
deriving DecidableEq, Repr

/-- An HTTP request issued by the client: target URL and body. -/
structure PoolApiRequest where
  url : String
  body : PoolRequestBody
deriving DecidableEq, Repr

/-- Embeds `PoolAPIClient.create` (_pools.py lines 23-25): it builds a
`CreatePoolRequest` body and posts it to the `/pool/remove` URL. -/
def PoolAPIClient.create (project_name pool_name : String) : PoolApiRequest :=
  { url := "/api/project/" ++ project_name ++ "/pool/remove"
    body := PoolRequestBody.createPool pool_name }

/-- Embeds `PoolAPIClient.remove` (_pools.py lines 33-37), the instance
removal call that legitimately posts to `/pool/remove`. -/
def PoolAPIClient.remove (project_name pool_name instance_name : String) :
    PoolApiRequest :=
  { url := "/api/project/" ++ project_name ++ "/pool/remove"
    body := PoolRequestBody.removeInstance pool_name instance_name }

/-- Embeds the `JobModel` fields `run_model_to_run` reads: the grouping key
(replica_num, job_num, submission_num) and whether `JobSpec.parse_raw` on the
row's `job_spec_data` succeeds. -/
structure JobModelRow where
  replica_num : Nat
  job_num : Nat
  submission_num : Nat
  job_spec_parses : Bool
deriving DecidableEq, Repr

/-- Embeds the `RunModel` fields `run_model_to_run` reads: the job rows and
whether `RunSpec.parse_raw` on the stored `run_spec` succeeds. -/
structure RunModelRow where
  jobs : List JobModelRow
  run_spec_parses : Bool
deriving DecidableEq, Repr

/-- Python exception classes observed by `list_project_runs`:
`pydantic.ValidationError` (caught) and `IndexError` (not caught). -/
inductive PyError where
  | validationError
  | indexError
deriving DecidableEq, Repr

/-- A `Job` as assembled by `run_model_to_run`: its submissions (abstracted to
the underlying rows; `job_model_to_job_submission` is a per-row view). -/
structure JobOut where
  job_submissions : List JobModelRow
deriving DecidableEq, Repr

/-- A `Run` as assembled by `run_model_to_run`, restricted to the fields the
claims mention. -/
structure RunOut where
  jobs : List JobOut
  latest_job_submission : Option JobModelRow
deriving DecidableEq, Repr

/-- Sort key order of runs.py line 608: (replica_num, job_num, submission_num)
lexicographically. -/
def job_row_le (a b : JobModelRow) : Bool :=
  a.replica_num < b.replica_num
    || (a.replica_num == b.replica_num
        && (a.job_num < b.job_num
            || (a.job_num == b.job_num && a.submission_num ≤ b.submission_num)))

/-- Embeds one grouped (replica_num, job_num) iteration of `run_model_to_run`
(runs.py lines 615-623): the job spec is parsed from the first row of the
group (a parse failure raises `ValidationError`), submissions are collected
when requested, and the job is emitted when the group was nonempty. -/
def job_from_group (include_job_submissions : Bool) :
    List JobModelRow → Except PyError (Option JobOut)
  | [] => Except.ok none
  | r :: rest =>
    if r.job_spec_parses then
      Except.ok (some { job_submissions := if include_job_submissions then r :: rest else [] })
    else Except.error PyError.validationError

/-- Folds `job_from_group` over the groups in order, keeping emitted jobs and
propagating the first raised error. -/
def collect_jobs (include_job_submissions : Bool) :
    List (List JobModelRow) → Except PyError (List JobOut)
  | [] => Except.ok []
  | g :: gs => do
    let j ← job_from_group include_job_submissions g
    let rest ← collect_jobs include_job_submissions gs
    match j with
    | some job => Except.ok (job :: rest)
    | none => Except.ok rest

/-- Embeds `run_model_to_run` (runs.py lines 606-648): sort the job rows by
(replica, job, submission), group them, assemble jobs; parse the stored run
spec; when `include_job_submissions` is set, read
`jobs[0].job_submissions[-1]` — an `IndexError` when either list is empty. -/
def run_model_to_run (include_job_submissions : Bool) (rm : RunModelRow) :
    Except PyError RunOut := do
  let sorted := rm.jobs.mergeSort job_row_le
  let groups := sorted.splitBy
    (fun a b => a.replica_num == b.replica_num && a.job_num == b.job_num)
  let jobs ← collect_jobs include_job_submissions groups
  let _ ← (if rm.run_spec_parses then Except.ok ()
           else Except.error PyError.validationError)
  let latest ←
    if include_job_submissions then
      match jobs with
      | [] => Except.error PyError.indexError
      | j :: _ =>
        match j.job_submissions.getLast? with
        | none => Except.error PyError.indexError
        | some s => Except.ok (some s)
    else Except.ok (none : Option JobModelRow)
  Except.ok { jobs := jobs, latest_job_submission := latest }

/-- Embeds the listing loop of `list_project_runs` (runs.py lines 163-173):
each run row is converted with `run_model_to_run` (submissions included);
`pydantic.ValidationError` is caught and the row skipped; any other exception
propagates and aborts the listing. -/
def list_project_runs : List RunModelRow → Except PyError (List RunOut)
  | [] => Except.ok []
  | rm :: rest =>
    match run_model_to_run true rm with
    | Except.ok r => (list_project_runs rest).map (fun l => r :: l)
    | Except.error PyError.validationError => list_project_runs rest
    | Except.error e => Except.error e

/-- The amended effect of `get_run_plan` on its `run_spec` and the pool rows,
stated from the amended claim: the run name is validated (raising on
failure) and preserved; `profile.pool_name` is overwritten with the resolved
pool's name and that pool is created when missing; `profile.backends` is
reset to `None` exactly when at least one job plan is computed under
creation policy REUSE_OR_CREATE and `backends` was a one-element list
containing the dstack meta-backend; all other `run_spec` fields are
unchanged. -/
def get_run_plan_effect_spec (pools : List String) (default_pool_name : String)
    (num_jobs : Nat) (rs : RunSpecM) : Except Unit (RunSpecM × List String) :=
  if !(match rs.run_name with | some n => run_name_valid n | none => true) then
    Except.error ()
  else
    Except.ok
      ({ rs with profile :=
          { rs.profile with
            backends :=
              if (rs.profile.creation_policy.getD CreationPolicy.REUSE_OR_CREATE
                    == CreationPolicy.REUSE_OR_CREATE)
                  && (num_jobs != 0)
                  && (match rs.profile.backends with
                      | some bs => bs.length = 1 && bs.contains BackendType.DSTACK
                      | none => false)
              then none
              else rs.profile.backends,
            pool_name :=
              some (rs.profile.pool_name.getD default_pool_name) } },
       if pools.contains (rs.profile.pool_name.getD default_pool_name) then pools
       else pools ++ [rs.profile.pool_name.getD default_pool_name])

/-- The warning an attempt contributes when iterated over: offers skipped for
RUNNER runtime contribute nothing, a `BackendError` contributes its logged
warning, other outcomes contribute nothing. -/
def backend_error_warning (a : CreateAttempt) : Option String :=
  if a.offer.instance_runtime = InstanceRuntime.RUNNER then none
  else
    match a.result with
    | CreateAttemptResult.backendError msg => some (launch_warning a msg)
    | _ => none

/-- Expected outcome of the offer loop, stated from the claim: the first
non-RUNNER offer whose backend call succeeds yields the returned and committed
row (built from that offer and its launch info); if there is none, the loop
errors with "Failed to create the instance." and commits nothing. -/
def expected_create_result (instance_name : String) (profile : Profile)
    (attempts : List CreateAttempt) :
    Except String InstanceModelRow × List InstanceModelRow :=
  match first_launch attempts with
  | some (a, info) =>
    (Except.ok (mk_instance_model_row instance_name profile a info),
     [mk_instance_model_row instance_name profile a info])
  | none => (Except.error "Failed to create the instance.", [])

/-! Theorems. -/

/-- C1: `process_terminating_run` derives job termination reasons and final
run statuses from the run termination reason by the two tables of the spec:
ALL_JOBS_DONE ↦ (DONE_BY_RUNNER, DONE); JOB_FAILED ↦ (TERMINATED_BY_SERVER,
FAILED); RETRY_LIMIT_EXCEEDED ↦ (TERMINATED_BY_SERVER, FAILED);
STOPPED_BY_USER ↦ (TERMINATED_BY_USER, TERMINATED); ABORTED_BY_USER ↦
(ABORTED_BY_USER, TERMINATED). -/
theorem run_termination_reason_tables :
    run_to_job_termination_reason RunTerminationReason.ALL_JOBS_DONE
        = JobTerminationReason.DONE_BY_RUNNER
    ∧ run_to_job_termination_reason RunTerminationReason.JOB_FAILED
        = JobTerminationReason.TERMINATED_BY_SERVER
    ∧ run_to_job_termination_reason RunTerminationReason.RETRY_LIMIT_EXCEEDED
        = JobTerminationReason.TERMINATED_BY_SERVER
    ∧ run_to_job_termination_reason RunTerminationReason.STOPPED_BY_USER
        = JobTerminationReason.TERMINATED_BY_USER
    ∧ run_to_job_termination_reason RunTerminationReason.ABORTED_BY_USER
        = JobTerminationReason.ABORTED_BY_USER
    ∧ run_termination_reason_to_status RunTerminationReason.ALL_JOBS_DONE
        = RunStatus.DONE
    ∧ run_termination_reason_to_status RunTerminationReason.JOB_FAILED
        = RunStatus.FAILED
    ∧ run_termination_reason_to_status RunTerminationReason.RETRY_LIMIT_EXCEEDED
        = RunStatus.FAILED
    ∧ run_termination_reason_to_status RunTerminationReason.STOPPED_BY_USER
        = RunStatus.TERMINATED
    ∧ run_termination_reason_to_status RunTerminationReason.ABORTED_BY_USER
        = RunStatus.TERMINATED := by
  decide

/-- Two strings with a common prefix and distinct suffixes are distinct. -/
theorem append_right_ne (s : String) {a b : String} (h : a.data ≠ b.data) :
    s ++ a ≠ s ++ b := by
  intro he
  apply h
  have hd := congrArg String.data he
  rw [String.data_append, String.data_append] at hd
  exact List.append_cancel_left hd

/-- C9: the pool API client's `create` posts its `CreatePoolRequest` body to
the `/pool/remove` endpoint, not to a dedicated `/pool/create` endpoint, for
every project and pool name. -/
theorem pool_create_posts_to_remove (project_name pool_name : String) :
    (PoolAPIClient.create project_name pool_name).url
        = "/api/project/" ++ project_name ++ "/pool/remove"
    ∧ (PoolAPIClient.create project_name pool_name).body
        = PoolRequestBody.createPool pool_name
    ∧ (PoolAPIClient.create project_name pool_name).url
        ≠ "/api/project/" ++ project_name ++ "/pool/create" := by
  refine ⟨rfl, rfl, ?_⟩
  show "/api/project/" ++ project_name ++ "/pool/remove"
      ≠ "/api/project/" ++ project_name ++ "/pool/create"
  exact append_right_ne ("/api/project/" ++ project_name) (by decide)

/-- When the tail of the run listing fails with an uncaught error, the whole
listing fails with it, whatever rows precede the tail. -/
theorem list_project_runs_append_error (pre : List RunModelRow)
    {rest : List RunModelRow}
    (h : list_project_runs rest = Except.error PyError.indexError) :
    list_project_runs (pre ++ rest) = Except.error PyError.indexError := by
  induction pre with
  | nil => simpa using h
  | cons rm pre ih =>
    show list_project_runs (rm :: (pre ++ rest)) = _
    unfold list_project_runs
    cases hr : run_model_to_run true rm with
    | ok r => rw [ih]; rfl
    | error e => cases e with
      | validationError => exact ih
      | indexError => rfl

/-- C10: a run row with zero job rows cannot be converted: with
`include_job_submissions=True`, `run_model_to_run` raises instead of
returning a run (an `IndexError` from `jobs[0].job_submissions[-1]` when the
stored run spec loads), and because `list_project_runs` catches only
pydantic validation errors, a listing containing such a row fails instead of
silently excluding it. -/
theorem run_model_to_run_empty_jobs (rm : RunModelRow)
    (pre post : List RunModelRow) (h : rm.jobs = []) :
    (run_model_to_run true rm).isOk = false
    ∧ (if rm.run_spec_parses then
        run_model_to_run true rm = Except.error PyError.indexError
          ∧ list_project_runs (pre ++ rm :: post) = Except.error PyError.indexError
       else True) := by
  obtain ⟨jobs, parses⟩ := rm
  simp only at h
  subst h
  have hconv : ∀ b : Bool, run_model_to_run true ⟨[], b⟩
      = (if b then Except.error PyError.indexError
         else Except.error PyError.validationError) := by
    intro b
    cases b <;>
      · simp only [run_model_to_run, List.mergeSort_nil, List.splitBy, collect_jobs]
        rfl
  cases parses with
  | false =>
    rw [hconv false]
    exact ⟨rfl, by simp⟩
  | true =>
    refine ⟨by rw [hconv true]; rfl, ?_⟩
    simp only [if_true]
    refine ⟨hconv true, ?_⟩
    apply list_project_runs_append_error
    show list_project_runs (⟨[], true⟩ :: post) = _
    unfold list_project_runs
    rw [hconv true]
    rfl

/-- Closed witness for `run_model_to_run_empty_jobs`: a concrete run row with
no job rows and a loadable run spec. -/
theorem run_model_to_run_empty_jobs_witness :
    (run_model_to_run true ⟨[], true⟩).isOk = false
    ∧ (if (RunModelRow.mk [] true).run_spec_parses then
        run_model_to_run true ⟨[], true⟩ = Except.error PyError.indexError
          ∧ list_project_runs ([] ++ ⟨[], true⟩ :: []) = Except.error PyError.indexError
       else True) :=
  run_model_to_run_empty_jobs ⟨[], true⟩ [] [] rfl

/-- A job whose status is terminal is not RUNNING, so it never satisfies the
stop-signal condition. -/
theorem job_stop_signal_false_of_not_running (reason : JobTerminationReason)
    (j : JobM) (h : j.status ≠ JobStatus.RUNNING) :
    job_stop_signal reason j = false := by
  unfold job_stop_signal
  have hb : (j.status == JobStatus.RUNNING) = false := by
    cases hs : j.status <;> first | rfl | exact absurd rfl (hs ▸ h)
  rw [hb, Bool.false_and]

/-- The job loop of `process_terminating_run` acts on each job independently:
the processed jobs are the per-job images under `job_after_termination`, the
final `unfinished_jobs_count` counts the processed jobs left unfinished, and
`stop_runner` is called exactly on the jobs satisfying `job_stop_signal`. -/
theorem processJobsLoop_eq (ptj : JobM → JobM) (reason : JobTerminationReason)
    (js : List JobM) :
    processJobsLoop ptj reason js =
      (js.map (job_after_termination ptj reason),
       (js.map (job_after_termination ptj reason)).countP
         (fun j => !j.status.is_finished),
       js.map (job_stop_signal reason)) := by
  induction js with
  | nil => rfl
  | cons j js ih =>
    simp only [processJobsLoop, ih, List.map_cons, List.countP_cons]
    by_cases hf : j.status.is_finished
    · have h1 : job_after_termination ptj reason j = j := by
        unfold job_after_termination; rw [if_pos hf]
      have h2 : job_stop_signal reason j = false := by
        apply job_stop_signal_false_of_not_running
        intro hr
        rw [hr] at hf
        exact absurd hf (by decide)
      rw [if_pos hf, h1, h2]
      simp [hf]
    · rw [if_neg hf]
      by_cases hterm : j.status = JobStatus.TERMINATING
      · have h1 : job_after_termination ptj reason j = j := by
          unfold job_after_termination; rw [if_neg hf, if_pos hterm]
        have h2 : job_stop_signal reason j = false := by
          apply job_stop_signal_false_of_not_running
          rw [hterm]
          intro hr
          exact absurd hr (by decide)
        rw [if_pos hterm, h1, h2]
        simp [hf]
      · have h1 : job_after_termination ptj reason j
            = ptj { j with status := JobStatus.TERMINATING, termination_reason := some reason } := by
          unfold job_after_termination; rw [if_neg hf, if_neg hterm]
        rw [if_neg hterm, h1]
        unfold job_stop_signal
        by_cases hfin : (ptj { j with status := JobStatus.TERMINATING, termination_reason := some reason }).status.is_finished
        · simp [hfin]
        · simp [hfin]

/-- Counting with the negation of a predicate gives zero exactly when the
predicate holds on the whole list. -/
theorem countP_not_finished_eq_zero_iff (l : List JobM) :
    l.countP (fun j => !j.status.is_finished) = 0
      ↔ l.all (fun j => j.status.is_finished) = true := by
  rw [List.countP_eq_zero, List.all_eq_true]
  constructor
  · intro h j hj
    have := h j hj
    simpa using this
  · intro h j hj
    simpa using h j hj

/-- C2: during `process_terminating_run` the graceful stop signal
(`stop_runner`) is sent to a job exactly when its status is RUNNING and the
mapped job termination reason is neither ABORTED_BY_USER nor DONE_BY_RUNNER
(a finished or TERMINATING job is never signalled, since its status is not
RUNNING), and every unfinished job not already TERMINATING is set to status
TERMINATING with that termination reason before being handed to the job
terminator. -/
theorem process_terminating_run_job_actions (ptj : JobM → JobM)
    (unregister_fails : Bool) (r : RunM) :
    (process_terminating_run ptj unregister_fails r).signals
        = r.jobs.map (fun j =>
            j.status == JobStatus.RUNNING
              && !(run_to_job_termination_reason r.termination_reason
                     == JobTerminationReason.ABORTED_BY_USER
                   || run_to_job_termination_reason r.termination_reason
                     == JobTerminationReason.DONE_BY_RUNNER))
    ∧ (process_terminating_run ptj unregister_fails r).run.jobs
        = r.jobs.map (fun j =>
            if j.status.is_finished then j
            else if j.status = JobStatus.TERMINATING then j
            else ptj { j with status := JobStatus.TERMINATING, termination_reason := some (run_to_job_termination_reason r.termination_reason) }) := by
  unfold process_terminating_run
  rw [processJobsLoop_eq]
  split
  · exact ⟨rfl, rfl⟩
  · exact ⟨rfl, rfl⟩

/-- C6: after `process_terminating_run`, the final `unfinished_jobs_count` is
zero exactly when every job of the run is in a terminal status; the run's
status is set to the final status mapped from its termination reason exactly
in that case (and left as is otherwise); the mapped final status is always a
terminal run status; and a failing gateway unregister attempt (merely logged)
yields the same run state as a succeeding one. -/
theorem process_terminating_run_finalization (ptj : JobM → JobM)
    (unregister_fails : Bool) (r : RunM) :
    ((process_terminating_run ptj unregister_fails r).unfinished_count = 0
        ↔ (process_terminating_run ptj unregister_fails r).run.jobs.all
            (fun j => j.status.is_finished) = true)
    ∧ (process_terminating_run ptj unregister_fails r).run.status
        = (if (process_terminating_run ptj unregister_fails r).run.jobs.all
              (fun j => j.status.is_finished) = true
           then run_termination_reason_to_status r.termination_reason
           else r.status)
    ∧ (run_termination_reason_to_status r.termination_reason).is_finished = true
    ∧ (process_terminating_run ptj true r).run
        = (process_terminating_run ptj false r).run := by
  have hproc : ∀ uf : Bool, process_terminating_run ptj uf r =
      (if (r.jobs.map (job_after_termination ptj (run_to_job_termination_reason r.termination_reason))).countP (fun j => !j.status.is_finished) = 0 then
        { run := { r with jobs := r.jobs.map (job_after_termination ptj (run_to_job_termination_reason r.termination_reason)), status := run_termination_reason_to_status r.termination_reason },
          signals := r.jobs.map (job_stop_signal (run_to_job_termination_reason r.termination_reason)),
          unfinished_count := (r.jobs.map (job_after_termination ptj (run_to_job_termination_reason r.termination_reason))).countP (fun j => !j.status.is_finished),
          unregister_failed := r.gateway_id.isSome && uf }
       else
        { run := { r with jobs := r.jobs.map (job_after_termination ptj (run_to_job_termination_reason r.termination_reason)) },
          signals := r.jobs.map (job_stop_signal (run_to_job_termination_reason r.termination_reason)),
          unfinished_count := (r.jobs.map (job_after_termination ptj (run_to_job_termination_reason r.termination_reason))).countP (fun j => !j.status.is_finished),
          unregister_failed := false }) := by
    intro uf
    unfold process_terminating_run
    rw [processJobsLoop_eq]
  have hjobs : ∀ uf : Bool, (process_terminating_run ptj uf r).run.jobs
      = r.jobs.map (job_after_termination ptj (run_to_job_termination_reason r.termination_reason)) := by
    intro uf
    rw [hproc uf]
    split <;> rfl
  have hcnt : ∀ uf : Bool, (process_terminating_run ptj uf r).unfinished_count
      = (r.jobs.map (job_after_termination ptj (run_to_job_termination_reason r.termination_reason))).countP (fun j => !j.status.is_finished) := by
    intro uf
    rw [hproc uf]
    split <;> rfl
  have hstat : (process_terminating_run ptj unregister_fails r).run.status
      = (if (r.jobs.map (job_after_termination ptj (run_to_job_termination_reason r.termination_reason))).countP (fun j => !j.status.is_finished) = 0
         then run_termination_reason_to_status r.termination_reason
         else r.status) := by
    rw [hproc unregister_fails]
    split <;> rfl
  refine ⟨?_, ?_, ?_, ?_⟩
  · rw [hcnt unregister_fails, hjobs unregister_fails]
    exact countP_not_finished_eq_zero_iff _
  · rw [hstat, hjobs unregister_fails]
    by_cases hall : (r.jobs.map (job_after_termination ptj (run_to_job_termination_reason r.termination_reason))).all
        (fun j => j.status.is_finished) = true
    · rw [if_pos hall, if_pos ((countP_not_finished_eq_zero_iff _).mpr hall)]
    · rw [if_neg hall, if_neg (fun hc => hall ((countP_not_finished_eq_zero_iff _).mp hc))]
  · cases r.termination_reason <;> decide
  · rw [hproc true, hproc false]
    split <;> rfl

/-- C3: `create_instance` tries offers in order, skipping RUNNER-runtime
offers, continuing past `BackendError` (logging one warning per such offer
tried before the first success) and past `NotImplementedError`; the first
success commits exactly one `InstanceModel` row — with status PROVISIONING
and provisioning data built from the succeeding offer — and returns it; when
every offer is exhausted it fails with "Failed to create the instance." and
commits no row. -/
theorem create_instance_offer_fallback (instance_name : String)
    (profile : Profile) (attempts : List CreateAttempt) :
    ((create_instance_try_offers instance_name profile attempts).result,
       (create_instance_try_offers instance_name profile attempts).committed)
        = expected_create_result instance_name profile attempts
    ∧ (create_instance_try_offers instance_name profile attempts).warnings
        = (attempts.takeWhile (fun a => !attempt_launches a)).filterMap
            backend_error_warning
    ∧ (create_instance_try_offers instance_name profile attempts).committed.all
        (fun row => row.status == InstanceStatus.PROVISIONING) = true := by
  induction attempts with
  | nil => exact ⟨rfl, rfl, rfl⟩
  | cons a rest ih =>
    obtain ⟨ih1, ih2, ih3⟩ := ih
    by_cases hr : a.offer.instance_runtime = InstanceRuntime.RUNNER
    · have htry : create_instance_try_offers instance_name profile (a :: rest)
          = create_instance_try_offers instance_name profile rest := by
        simp only [create_instance_try_offers]
        rw [if_pos hr]
      have hfl : first_launch (a :: rest) = first_launch rest := by
        simp only [first_launch]
        rw [if_pos hr]
      have hexp : expected_create_result instance_name profile (a :: rest)
          = expected_create_result instance_name profile rest := by
        unfold expected_create_result
        rw [hfl]
      have hl : attempt_launches a = false := by
        simp [attempt_launches, hr]
      have hw : backend_error_warning a = none := by
        unfold backend_error_warning
        rw [if_pos hr]
      refine ⟨?_, ?_, ?_⟩
      · rw [htry, hexp]
        exact ih1
      · rw [htry, List.takeWhile_cons]
        simp only [hl, Bool.not_false, if_true]
        rw [List.filterMap_cons_none hw]
        exact ih2
      · rw [htry]
        exact ih3
    · cases hres : a.result with
      | success info =>
        have htry : create_instance_try_offers instance_name profile (a :: rest)
            = { result := Except.ok (mk_instance_model_row instance_name profile a info),
                committed := [mk_instance_model_row instance_name profile a info],
                warnings := [] } := by
          simp only [create_instance_try_offers]
          rw [if_neg hr, hres]
        have hfl : first_launch (a :: rest) = some (a, info) := by
          simp only [first_launch]
          rw [if_neg hr, hres]
        have hexp : expected_create_result instance_name profile (a :: rest)
            = (Except.ok (mk_instance_model_row instance_name profile a info),
               [mk_instance_model_row instance_name profile a info]) := by
          unfold expected_create_result
          rw [hfl]
        have hl : attempt_launches a = true := by
          simp [attempt_launches, hr, hres]
        refine ⟨?_, ?_, ?_⟩
        · rw [htry, hexp]
        · rw [htry, List.takeWhile_cons]
          simp [hl]
        · rw [htry]
          rfl
      | backendError msg =>
        have htry : create_instance_try_offers instance_name profile (a :: rest)
            = { create_instance_try_offers instance_name profile rest with
                warnings := launch_warning a msg
                  :: (create_instance_try_offers instance_name profile rest).warnings } := by
          simp only [create_instance_try_offers]
          rw [if_neg hr, hres]
        have hfl : first_launch (a :: rest) = first_launch rest := by
          simp only [first_launch]
          rw [if_neg hr, hres]
        have hexp : expected_create_result instance_name profile (a :: rest)
            = expected_create_result instance_name profile rest := by
          unfold expected_create_result
          rw [hfl]
        have hl : attempt_launches a = false := by
          simp [attempt_launches, hr, hres]
        have hw : backend_error_warning a = some (launch_warning a msg) := by
          unfold backend_error_warning
          rw [if_neg hr, hres]
        refine ⟨?_, ?_, ?_⟩
        · rw [htry, hexp]
          exact ih1
        · rw [htry, List.takeWhile_cons]
          simp only [hl, Bool.not_false, if_true]
          rw [List.filterMap_cons_some hw]
          show launch_warning a msg
              :: (create_instance_try_offers instance_name profile rest).warnings = _
          rw [ih2]
        · rw [htry]
          exact ih3
      | notImplementedError =>
        have htry : create_instance_try_offers instance_name profile (a :: rest)
            = create_instance_try_offers instance_name profile rest := by
          simp only [create_instance_try_offers]
          rw [if_neg hr, hres]
        have hfl : first_launch (a :: rest) = first_launch rest := by
          simp only [first_launch]
          rw [if_neg hr, hres]
        have hexp : expected_create_result instance_name profile (a :: rest)
            = expected_create_result instance_name profile rest := by
          unfold expected_create_result
          rw [hfl]
        have hl : attempt_launches a = false := by
          simp [attempt_launches, hr, hres]
        have hw : backend_error_warning a = none := by
          unfold backend_error_warning
          rw [if_neg hr, hres]
        refine ⟨?_, ?_, ?_⟩
        · rw [htry, hexp]
          exact ih1
        · rw [htry, List.takeWhile_cons]
          simp only [hl, Bool.not_false, if_true]
          rw [List.filterMap_cons_none hw]
          exact ih2
        · rw [htry]
          exact ih3

/-- C4: after dropping offers whose backend does not support explicit
instance creation, if all remaining offers belong to backends without
creation support the pre-check of `create_instance` fails with the client
error listing those backends; otherwise the remaining offer list is nonempty
and the pre-check passes (so the "Failed to find offers to create the
instance." branch cannot fire). Because the drop keeps only supported
backends, the first condition holds exactly when no input offer has a
supported backend — and the listed backend set is then empty. -/
theorem create_instance_precheck_behavior
    (offers : List (BackendType × InstanceOfferM)) :
    (if (((get_create_instance_offers offers).map Prod.fst).dedup).all
        (fun bt => !BACKENDS_WITH_CREATE_INSTANCE_SUPPORT.contains bt) then
      create_instance_check offers
        = Except.error (CreateInstanceError.backendsNotSupported
            (((get_create_instance_offers offers).map Prod.fst).dedup))
     else
      get_create_instance_offers offers ≠ []
        ∧ create_instance_check offers = Except.ok ())
    ∧ ((((get_create_instance_offers offers).map Prod.fst).dedup).all
        (fun bt => !BACKENDS_WITH_CREATE_INSTANCE_SUPPORT.contains bt)
       = offers.all
           (fun p => !BACKENDS_WITH_CREATE_INSTANCE_SUPPORT.contains p.1)) := by
  have hmemsup : ∀ bt, bt ∈ (get_create_instance_offers offers).map Prod.fst →
      BACKENDS_WITH_CREATE_INSTANCE_SUPPORT.contains bt = true := by
    intro bt hbt
    rcases List.mem_map.mp hbt with ⟨p, hp, rfl⟩
    exact (List.mem_filter.mp hp).2
  have hcond : ((((get_create_instance_offers offers).map Prod.fst).dedup).all
      (fun bt => !BACKENDS_WITH_CREATE_INSTANCE_SUPPORT.contains bt) = true)
      ↔ get_create_instance_offers offers = [] := by
    rw [List.all_eq_true]
    constructor
    · intro h
      by_contra hne
      obtain ⟨p, hp⟩ := List.exists_mem_of_ne_nil _ hne
      have hbt : p.1 ∈ (get_create_instance_offers offers).map Prod.fst :=
        List.mem_map_of_mem Prod.fst hp
      have := h _ (List.mem_dedup.mpr hbt)
      rw [hmemsup p.1 hbt] at this
      simp at this
    · intro h bt hbt
      rw [h] at hbt
      simp at hbt
  have hnil : get_create_instance_offers offers = []
      ↔ offers.all
          (fun p => !BACKENDS_WITH_CREATE_INSTANCE_SUPPORT.contains p.1) = true := by
    unfold get_create_instance_offers
    rw [List.filter_eq_nil_iff, List.all_eq_true]
    constructor
    · intro h p hp
      have := h p hp
      simpa using this
    · intro h p hp
      have := h p hp
      simpa using this
  constructor
  · by_cases hc : (((get_create_instance_offers offers).map Prod.fst).dedup).all
        (fun bt => !BACKENDS_WITH_CREATE_INSTANCE_SUPPORT.contains bt) = true
    · rw [if_pos hc]
      unfold create_instance_check
      rw [if_pos hc]
    · rw [if_neg hc]
      refine ⟨fun h => hc (hcond.mpr h), ?_⟩
      unfold create_instance_check
      rw [if_neg hc,
        if_neg (fun h => hc (hcond.mpr (List.isEmpty_iff.mp h)))]
  · rw [Bool.eq_iff_iff, hcond, hnil]

/-- C5: every job plan of `get_run_plan` is built by `mk_job_plan` from the
run's pool offers and the job's remote offers; under creation policy
REUSE_OR_CREATE the combined offer list is pool offers first then remote
offers, the previewed `offers` are at most the first 50 entries of that list,
`total_offers` is its full length, and `max_price` is the maximum price over
the combined list, `none` exactly when the list is empty. -/
theorem get_run_plan_offer_merge (pool remote : List InstanceOfferM)
    (pool_instances : List (InstanceOfferM × InstanceStatus))
    (per_job_remote : List (List InstanceOfferM)) :
    get_run_plan_job_plans CreationPolicy.REUSE_OR_CREATE pool_instances per_job_remote
        = per_job_remote.map (fun r =>
            mk_job_plan CreationPolicy.REUSE_OR_CREATE
              (pool_offers_from_instances pool_instances) r)
    ∧ (mk_job_plan CreationPolicy.REUSE_OR_CREATE pool remote).offers
        = (pool ++ remote).take 50
    ∧ (mk_job_plan CreationPolicy.REUSE_OR_CREATE pool remote).offers.length
        = min 50 (pool.length + remote.length)
    ∧ (mk_job_plan CreationPolicy.REUSE_OR_CREATE pool remote).total_offers
        = pool.length + remote.length
    ∧ ((mk_job_plan CreationPolicy.REUSE_OR_CREATE pool remote).max_price = none
        ↔ pool ++ remote = [])
    ∧ (mk_job_plan CreationPolicy.REUSE_OR_CREATE pool remote).max_price.all
        (fun q => (pool ++ remote).any (fun o => o.price == q)) = true
    ∧ (pool ++ remote).all
        (fun o => decide (o.price
          ≤ (mk_job_plan CreationPolicy.REUSE_OR_CREATE pool remote).max_price.getD o.price))
        = true := by
  haveI : Std.Antisymm (fun x y : ℚ => x ≤ y) :=
    ⟨fun {x y : ℚ} (h1 : x ≤ y) (h2 : y ≤ x) => le_antisymm h1 h2⟩
  have hplan : mk_job_plan CreationPolicy.REUSE_OR_CREATE pool remote
      = { offers := (pool ++ remote).take 50,
          total_offers := (pool ++ remote).length,
          max_price := ((pool ++ remote).map (fun o => o.price)).max? } := by
    unfold mk_job_plan
    rw [if_pos rfl]
  refine ⟨rfl, ?_, ?_, ?_, ?_, ?_, ?_⟩
  · rw [hplan]
  · rw [hplan]
    simp [List.length_take, List.length_append]
  · rw [hplan]
    simp [List.length_append]
  · rw [hplan]
    show ((pool ++ remote).map (fun o => o.price)).max? = none ↔ pool ++ remote = []
    rw [List.max?_eq_none_iff]
    exact List.map_eq_nil_iff
  · rw [hplan]
    show (((pool ++ remote).map (fun o => o.price)).max?).all
        (fun q => (pool ++ remote).any (fun o => o.price == q)) = true
    cases hm : ((pool ++ remote).map (fun o => o.price)).max? with
    | none => rfl
    | some q =>
      have hq : q ∈ (pool ++ remote).map (fun o => o.price) :=
        List.max?_mem max_choice hm
      rcases List.mem_map.mp hq with ⟨o, ho, rfl⟩
      show (pool ++ remote).any (fun x => x.price == o.price) = true
      rw [List.any_eq_true]
      exact ⟨o, ho, by simp⟩
  · rw [hplan]
    rw [List.all_eq_true]
    intro o ho
    cases hm : ((pool ++ remote).map (fun o => o.price)).max? with
    | none =>
      have : pool ++ remote = [] := List.map_eq_nil_iff.mp (List.max?_eq_none_iff.mp hm)
      rw [this] at ho
      simp at ho
    | some q =>
      have hmax := (List.max?_eq_some_iff (fun a : ℚ => le_refl a) max_choice
        (fun _ _ _ => max_le_iff)).mp hm
      have hle : o.price ≤ q :=
        hmax.2 o.price (List.mem_map_of_mem (fun o => o.price) ho)
      simpa [hm] using hle

/-- On reload failure `write_conf` reports failure and leaves the directory
contents exactly as before: the prior text is written back, or the file is
removed when it was newly created. -/
theorem write_conf_reload_fail (conf conf_name : String)
    (files : String → Option String) :
    (write_conf false conf conf_name files).ok = false
    ∧ (write_conf false conf conf_name files).files = files := by
  simp only [write_conf]
  cases hf : files conf_name with
  | some o =>
    refine ⟨rfl, ?_⟩
    funext p
    by_cases hp : p = conf_name
    · simp [hp, hf]
    · simp [hp]
  | none =>
    refine ⟨rfl, ?_⟩
    funext p
    by_cases hp : p = conf_name
    · simp [hp, hf]
    · simp [hp]

/-- C7: for each gateway config write operation (`register_service`,
`register_entrypoint`, `add_upstream`, `remove_upstream`), when the proxy
reload fails the operation raises (never returns successfully), the prior
config file is restored exactly (deleted when newly created), and the
in-memory `configs` mapping is unchanged — the whole controller state equals
the initial one, because the mutated copy is stored only after a successful
write. The last conjunct states the `write_conf` rollback itself. -/
theorem gateway_reload_failure_rolls_back (render : SiteConfigM → String)
    (certbot_ok : Bool) (st : NginxState)
    (project service_id domain proxy_path server replica_id
      conf_text conf_name : String) (auth : Bool) :
    ((register_service render certbot_ok false st project service_id domain auth).2 = st
      ∧ (register_service render certbot_ok false st project service_id domain auth).1.isSome = true)
    ∧ ((register_entrypoint render certbot_ok false st domain proxy_path).2 = st
      ∧ (register_entrypoint render certbot_ok false st domain proxy_path).1.isSome = true)
    ∧ ((add_upstream render false st domain server replica_id).2 = st
      ∧ (add_upstream render false st domain server replica_id).1.isSome = true)
    ∧ ((remove_upstream render false st domain replica_id).2 = st
      ∧ (remove_upstream render false st domain replica_id).1.isSome = true)
    ∧ ((write_conf false conf_text conf_name st.files).ok = false
      ∧ (write_conf false conf_text conf_name st.files).files = st.files) := by
  have hrec : ∀ f : String → Option String, f = st.files →
      ({ st with files := f } : NginxState) = st := by
    intro f hf
    rw [hf]
  refine ⟨?_, ?_, ?_, ?_, write_conf_reload_fail conf_text conf_name st.files⟩
  · simp only [register_service]
    by_cases h1 : (st.configs.lookup (get_config_name domain)).isSome = true
    · rw [if_pos h1]
      refine ⟨?_, ?_⟩ <;> trivial
    · rw [if_neg h1]
      by_cases h2 : (!certbot_ok) = true
      · rw [if_pos h2]
        refine ⟨?_, ?_⟩ <;> trivial
      · rw [if_neg h2, (write_conf_reload_fail _ _ _).1]
        simp only [Bool.false_eq_true, if_false]
        exact ⟨hrec _ (write_conf_reload_fail _ _ _).2, by trivial⟩
  · simp only [register_entrypoint]
    by_cases h1 : (st.configs.lookup (get_config_name domain)).isSome = true
    · rw [if_pos h1]
      refine ⟨?_, ?_⟩ <;> trivial
    · rw [if_neg h1]
      by_cases h2 : (!certbot_ok) = true
      · rw [if_pos h2]
        refine ⟨?_, ?_⟩ <;> trivial
      · rw [if_neg h2, (write_conf_reload_fail _ _ _).1]
        simp only [Bool.false_eq_true, if_false]
        exact ⟨hrec _ (write_conf_reload_fail _ _ _).2, by trivial⟩
  · cases hm : st.configs.lookup (get_config_name domain) with
    | none =>
      simp only [add_upstream, hm]
      refine ⟨?_, ?_⟩ <;> trivial
    | some sc =>
      cases sc with
      | entrypoint c =>
        simp only [add_upstream, hm]
        refine ⟨?_, ?_⟩ <;> trivial
      | service sc =>
        simp only [add_upstream, hm]
        rw [(write_conf_reload_fail _ _ _).1]
        simp only [Bool.false_eq_true, if_false]
        exact ⟨hrec _ (write_conf_reload_fail _ _ _).2, by trivial⟩
  · cases hm : st.configs.lookup (get_config_name domain) with
    | none =>
      simp only [remove_upstream, hm]
      refine ⟨?_, ?_⟩ <;> trivial
    | some sc =>
      cases sc with
      | entrypoint c =>
        simp only [remove_upstream, hm]
        refine ⟨?_, ?_⟩ <;> trivial
      | service sc =>
        simp only [remove_upstream, hm]
        by_cases h1 : (sc.servers.lookup replica_id).isNone = true
        · rw [if_pos h1]
          refine ⟨?_, ?_⟩ <;> trivial
        · rw [if_neg h1, (write_conf_reload_fail _ _ _).1]
          simp only [Bool.false_eq_true, if_false]
          exact ⟨hrec _ (write_conf_reload_fail _ _ _).2, by trivial⟩

/-- The backward-compatibility profile mutation is idempotent. -/
theorem get_offers_profile_update_idem (p : Profile) :
    get_offers_profile_update (get_offers_profile_update p)
      = get_offers_profile_update p := by
  unfold get_offers_profile_update
  cases hb : p.backends with
  | none => simp [hb]
  | some bs =>
    by_cases hc : bs.length = 1 ∧ BackendType.DSTACK ∈ bs
    · simp [hb, hc]
    · simp [hb, hc]

/-- Iterating the profile mutation once per job collapses to a single
application as soon as there is at least one job. -/
theorem profile_update_iterate (p : Profile) (k : Nat) :
    Nat.rec p (fun _ q => get_offers_profile_update q) (k + 1)
      = get_offers_profile_update p := by
  induction k with
  | zero => rfl
  | succ k ih =>
    show get_offers_profile_update
        (Nat.rec p (fun _ q => get_offers_profile_update q) (k + 1)) = _
    rw [ih, get_offers_profile_update_idem]

/-- The per-job loop's net effect on the profile, in closed form. -/
theorem profile_after_loop_eq (p : Profile) (n : Nat) :
    (if p.creation_policy.getD CreationPolicy.REUSE_OR_CREATE
        = CreationPolicy.REUSE_OR_CREATE
     then Nat.rec p (fun _ q => get_offers_profile_update q) n
     else p)
    = { p with backends :=
        if (p.creation_policy.getD CreationPolicy.REUSE_OR_CREATE
              == CreationPolicy.REUSE_OR_CREATE)
            && (n != 0)
            && (match p.backends with
                | some bs => bs.length = 1 && bs.contains BackendType.DSTACK
                | none => false)
        then none
        else p.backends } := by
  obtain ⟨pb, pr, pn, pc, pt, pi⟩ := p
  by_cases hp : pc.getD CreationPolicy.REUSE_OR_CREATE
      = CreationPolicy.REUSE_OR_CREATE
  · rw [if_pos hp]
    cases n with
    | zero => simp [hp]
    | succ k =>
      rw [profile_update_iterate]
      unfold get_offers_profile_update
      cases pb with
      | none => simp [hp]
      | some bs =>
        by_cases hc : bs.length = 1 ∧ BackendType.DSTACK ∈ bs
        · simp [hc, hp]
        · simp [hc, hp]
  · rw [if_neg hp]
    have hbeq : (pc.getD CreationPolicy.REUSE_OR_CREATE
        == CreationPolicy.REUSE_OR_CREATE) = false := by
      simpa using hp
    simp [hbeq]

/-- C8 amended: the `run_spec` effect of `get_run_plan` coincides with
`get_run_plan_effect_spec`: `run_name` is restored, but `profile.pool_name`
is overwritten with the resolved pool's name (the pool being created when
missing) and `profile.backends` is reset to null exactly when a job plan is
computed under REUSE_OR_CREATE and it was exactly the one-element dstack
list; all other fields survive unchanged. -/
theorem get_run_plan_run_spec_eq_spec (pools : List String)
    (default_pool_name : String) (num_jobs : Nat) (rs : RunSpecM) :
    get_run_plan_run_spec pools default_pool_name num_jobs rs
      = get_run_plan_effect_spec pools default_pool_name num_jobs rs := by
  simp only [get_run_plan_run_spec, get_run_plan_effect_spec]
  cases hnm : (match rs.run_name with | some n => run_name_valid n | none => true) with
  | false => simp [hnm]
  | true =>
    simp only [hnm, Bool.not_true, Bool.false_eq_true, if_false]
    have hpool : get_or_create_pool_by_name pools default_pool_name rs.profile.pool_name
        = (rs.profile.pool_name.getD default_pool_name,
           if pools.contains (rs.profile.pool_name.getD default_pool_name) then pools
           else pools ++ [rs.profile.pool_name.getD default_pool_name]) := by
      unfold get_or_create_pool_by_name
      by_cases hc : pools.contains (rs.profile.pool_name.getD default_pool_name) = true
      · rw [if_pos hc, if_pos hc]
      · rw [if_neg hc, if_neg hc]
    rw [hpool, profile_after_loop_eq]

/-- C8 counterexample: `get_run_plan` is not mutation-free on its `run_spec`.
For a run spec with a valid run name, `profile.backends = [dstack]` and
`profile.pool_name = "p"` (with pool "p" existing), one job, the call
succeeds but hands back a `run_spec` whose `profile.backends` has been reset
to null — different from the input run spec. -/
theorem get_run_plan_mutates_run_spec :
    get_run_plan_run_spec ["p"] "default-pool" 1
        { run_name := some "myrun",
          profile := { backends := some [BackendType.DSTACK], regions := none,
                       pool_name := some "p", creation_policy := none,
                       termination_policy := none, termination_idle_time := none } }
      = Except.ok
          ({ run_name := some "myrun",
             profile := { backends := none, regions := none,
                          pool_name := some "p", creation_policy := none,
                          termination_policy := none, termination_idle_time := none } },
           ["p"])
    ∧ ({ run_name := some "myrun",
         profile := { backends := none, regions := none,
                      pool_name := some "p", creation_policy := none,
                      termination_policy := none, termination_idle_time := none } } : RunSpecM)
      ≠ { run_name := some "myrun",
          profile := { backends := some [BackendType.DSTACK], regions := none,
                       pool_name := some "p", creation_policy := none,
                       termination_policy := none, termination_idle_time := none } } := by
  exact ⟨rfl, by decide⟩

end DstackSpec
